import Mathlib

/-!
Shallow embedding of the server actions in `src/actions/userActions.ts`
(`addUser` and `getUsers`) of the repository
`Nahid-Mahmud/server-actions-practice`.

The handlers are `async` TypeScript functions whose external behaviour is
determined by the outcome of a single outbound `fetch` and of the
`response.json()` body parse.  We model that environment explicitly
(`FetchOutcome`), model JavaScript values that flow through the handlers
with a small JSON value type (`Json`, with JS truthiness for the `||`
operator), and model the handler as a pure function from its arguments and
the environment to a result in the exception monad `Except JsError`
together with a trace of observable effects (`Effect`): awaits (suspension
points), console logs, and `revalidatePath` cache-invalidation signals.
An `Except.error` result would mean an exception propagating to the
caller; the `try/catch` of the source is the final `match` in each
handler.
-/

/-- JavaScript/JSON values that flow through the handlers. -/
inductive Json where
  | null
  | bool (b : Bool)
  | num (n : Int)
  | str (s : String)
  | arr (xs : List Json)
  | obj (fields : List (String × Json))
deriving Repr

/-- Field lookup in a list of JSON object fields (first match wins). -/
def lookupField : List (String × Json) → String → Option Json
  | [], _ => none
  | (k, v) :: rest, key => if k = key then some v else lookupField rest key

/-- Exceptions that the runtime can throw inside the handlers: `fetch`
rejecting (connection refused, timeout, DNS failure), `response.json()`
rejecting (malformed body), and the TypeError raised by property access
on `null`. -/
inductive JsError where
  | fetchFailed
  | jsonParseError
  | typeError
deriving Repr, DecidableEq

/-- JavaScript property access `j.key`: field lookup on an object,
`undefined` (`none`) for a missing field or a non-object, non-null base
(strings, numbers, booleans, arrays), and a thrown TypeError when the
base is `null`. -/
def getProp : Json → String → Except JsError (Option Json)
  | Json.null, _ => Except.error JsError.typeError
  | Json.obj fields, key => Except.ok (lookupField fields key)
  | _, _ => Except.ok none

/-- JavaScript truthiness of a JSON value (`""`, `0`, `false`, `null`
are falsy). -/
def truthy : Json → Bool
  | Json.null => false
  | Json.bool b => b
  | Json.num n => n ≠ 0
  | Json.str s => s ≠ ""
  | Json.arr _ => true
  | Json.obj _ => true

/-- Truthiness of a possibly-undefined value (`undefined` is falsy). -/
def truthyOpt : Option Json → Bool
  | none => false
  | some j => truthy j

/-- The `FormState` type of `userActions.ts`:
`{ error?: string; success?: boolean }`.  The `error` field is assigned
`errorData.message`, an untyped JSON value, so we give it type
`Option Json`; the source's own literals are strings. -/
structure FormState where
  error : Option Json
  success : Option Bool
deriving Repr

/-- One value printed by `console.log` / `console.error`. -/
inductive LogEntry where
  | optStr (s : Option String)
  | str (s : String)
  | json (j : Json)
  | err (e : JsError)
deriving Repr

/-- Observable effects of a handler run, in order: console output, await
points (suspensions), and cache-invalidation signals. -/
inductive Effect where
  | log (e : LogEntry)
  | awaitWait (ms : Nat)
  | awaitFetch (url : String) (body : Option Json)
  | awaitJson
  | revalidate (path : String)
deriving Repr

/-- The two reads the handler performs on its `FormData` argument:
`formData.get("name")` and `formData.get("email")`, each
`string | null`. -/
structure FormData where
  name : Option String
  email : Option String
deriving Repr, DecidableEq

/-- The `fetch` response object, as far as the handlers inspect it:
`ok`, `status`, `statusText`, and the outcome of `await res.json()`
(`none` = the body does not parse, the promise rejects). -/
structure Response where
  ok : Bool
  status : Nat
  statusText : String
  jsonBody : Option Json
deriving Repr

/-- Outcome of the outbound `fetch` call: the promise rejects (transport
fault) or resolves with a response. -/
inductive FetchOutcome where
  | fault
  | resp (r : Response)
deriving Repr

/-- Number of `revalidatePath` cache-invalidation signals in a trace. -/
def revalidateCount (tr : List Effect) : Nat :=
  tr.countP (fun e => match e with | Effect.revalidate _ => true | _ => false)

/-- Number of outbound network calls in a trace. -/
def fetchCount (tr : List Effect) : Nat :=
  tr.countP (fun e => match e with | Effect.awaitFetch _ _ => true | _ => false)

/-- Whether an effect is a suspension point (an `await`). -/
def isSuspension : Effect → Bool
  | Effect.awaitWait _ => true
  | Effect.awaitFetch _ _ => true
  | Effect.awaitJson => true
  | _ => false

/-- The suspension points of a trace, in order. -/
def suspensionEffects (tr : List Effect) : List Effect :=
  tr.filter isSuspension

/-- Endpoint of the registration `fetch`. -/
def registerUrl : String := "http://localhost:5000/api/v1/auth/register"

/-- `JSON.stringify` of a `string | null` field value. -/
def jsonOfField : Option String → Json
  | some s => Json.str s
  | none => Json.null

/-- The POST body
`JSON.stringify(\x7b name: formData.get("name"), email: formData.get("email") \x7d)`. -/
def requestBody (fd : FormData) : Json :=
  Json.obj [("name", jsonOfField fd.name), ("email", jsonOfField fd.email)]

/-- The literal of the `catch` branch of `addUser`. -/
def connectivityErrorMessage : String :=
  "Failed to add user. Please check your network connection and try again."

/-- The fallback of the non-ok branch: `Server error: $\x7bresponse.status\x7d`. -/
def serverErrorMessage (status : Nat) : String :=
  "Server error: " ++ toString status

/-- `errorData.message || serverErrorMessage`, applied to the value the
property access yielded — JS `||` takes the left operand when truthy, so
a missing, empty, `null` or otherwise falsy `message` falls through to
the template. -/
def messageOrFallback (m : Option Json) (status : Nat) : Json :=
  match m with
  | some v => if truthy v then v else Json.str (serverErrorMessage status)
  | none => Json.str (serverErrorMessage status)

/-- The `try` block of `addUser` (everything from the `fetch` to the two
`return`s); `Except.error` is a thrown exception reaching the `catch`. -/
def tryBlock (fd : FormData) (env : FetchOutcome) :
    Except JsError FormState × List Effect :=
  match env with
  | FetchOutcome.fault =>
      (Except.error JsError.fetchFailed,
       [Effect.awaitFetch registerUrl (some (requestBody fd))])
  | FetchOutcome.resp r =>
      let fetched := [Effect.awaitFetch registerUrl (some (requestBody fd))]
      if !r.ok then
        match r.jsonBody with
        | none =>
            (Except.error JsError.jsonParseError, fetched ++ [Effect.awaitJson])
        | some errorData =>
            match getProp errorData "message" with
            | Except.error e => (Except.error e, fetched ++ [Effect.awaitJson])
            | Except.ok m =>
                (Except.ok { error := some (messageOrFallback m r.status),
                             success := some false },
                 fetched ++ [Effect.awaitJson])
      else
        match r.jsonBody with
        | none =>
            (Except.error JsError.jsonParseError, fetched ++ [Effect.awaitJson])
        | some data =>
            (Except.ok { success := some true, error := none },
             fetched ++ [Effect.awaitJson, Effect.log (LogEntry.json data),
                         Effect.revalidate "/"])

/-- The `addUser` server action: logs, the three-second simulated delay,
then the `try/catch` around the outbound call.  The first component is
what the caller observes: `Except.error` would be an exception escaping
the handler. -/
def addUser (id : String) (prevState : FormState) (fd : FormData)
    (env : FetchOutcome) : Except JsError FormState × List Effect :=
  let pre : List Effect :=
    [Effect.log (LogEntry.optStr fd.name), Effect.log (LogEntry.optStr fd.email),
     Effect.log (LogEntry.str id), Effect.awaitWait 3000]
  match tryBlock fd env with
  | (Except.ok fs, tr) => (Except.ok fs, pre ++ tr)
  | (Except.error e, tr) =>
      (Except.ok { error := some (Json.str connectivityErrorMessage),
                   success := some false },
       pre ++ tr ++ [Effect.log (LogEntry.err e)])

/-- `true` exactly when the remote call resolved with `response.ok` and a
body that parses as JSON (the path on which `addUser` reports success). -/
def remoteAccepted : FetchOutcome → Bool
  | FetchOutcome.resp r => r.ok && r.jsonBody.isSome
  | FetchOutcome.fault => false

/-- `true` exactly when the outbound exchange cannot complete at all:
the `fetch` promise rejects, or the response body is malformed. -/
def cannotComplete : FetchOutcome → Bool
  | FetchOutcome.fault => true
  | FetchOutcome.resp r => r.jsonBody.isNone

/-- Endpoint of the listing `fetch`. -/
def usersUrl : String := "http://localhost:5000/api/v1/auth/test-users"

/-- Return type of `getUsers`: always a record with a `users` collection
and an `error` that is `null` (`none`) on success. -/
structure GetUsersResult where
  users : Json
  error : Option String
deriving Repr

/-- The generic catch-branch message of `getUsers`. -/
def usersNetworkErrorMessage : String :=
  "Network error: Unable to fetch users. Please check your connection."

/-- The `try` block of `getUsers`: fetch, the non-ok early return (which
does not touch the body), and the `data.users || data` success return. -/
def getUsersTry (env : FetchOutcome) :
    Except JsError GetUsersResult × List Effect :=
  match env with
  | FetchOutcome.fault =>
      (Except.error JsError.fetchFailed, [Effect.awaitFetch usersUrl none])
  | FetchOutcome.resp r =>
      let fetched := [Effect.awaitFetch usersUrl none]
      if !r.ok then
        (Except.ok { users := Json.arr [],
                     error := some ("Failed to fetch users: " ++ toString r.status
                        ++ " " ++ r.statusText) },
         fetched ++ [Effect.log (LogEntry.str ("HTTP Error: " ++ toString r.status
                        ++ " " ++ r.statusText))])
      else
        match r.jsonBody with
        | none =>
            (Except.error JsError.jsonParseError, fetched ++ [Effect.awaitJson])
        | some data =>
            match getProp data "users" with
            | Except.error e => (Except.error e, fetched ++ [Effect.awaitJson])
            | Except.ok u =>
                (Except.ok { users := (match u with
                              | some v => if truthy v then v else data
                              | none => data),
                             error := none },
                 fetched ++ [Effect.awaitJson])

/-- The `getUsers` server action with its `try/catch`. -/
def getUsers (env : FetchOutcome) :
    Except JsError GetUsersResult × List Effect :=
  match getUsersTry env with
  | (Except.ok res, tr) => (Except.ok res, tr)
  | (Except.error e, tr) =>
      (Except.ok { users := Json.arr [], error := some usersNetworkErrorMessage },
       tr ++ [Effect.log (LogEntry.err e)])

/-- The concrete form input of the spec scenarios. -/
def adaForm : FormData := { name := some "Ada", email := some "ada@example.com" }

/-- The concrete 200-response body of the spec scenario. -/
def adaBody : Json :=
  Json.obj [("id", Json.str "1"), ("name", Json.str "Ada"),
            ("email", Json.str "ada@example.com")]

/-- An empty previous form state. -/
def emptyState : FormState := { error := none, success := none }

/-- The 200 response of the spec scenario, carrying `adaBody`. -/
def adaOkResp : Response :=
  { ok := true, status := 200, statusText := "OK", jsonBody := some adaBody }

/-- The 400 response of the spec scenario, body
`\x7bmessage: "email already exists"\x7d`. -/
def email400Resp : Response :=
  { ok := false, status := 400, statusText := "Bad Request",
    jsonBody := some (Json.obj [("message", Json.str "email already exists")]) }

/-- A response with a success status whose body does not parse as JSON. -/
def okMalformedResp : Response :=
  { ok := true, status := 200, statusText := "OK", jsonBody := none }

/-- Claim C1: for every invocation of `addUser` and every outcome of the
outbound call (acceptance, rejection with any status and body, or a
thrown transport/parse fault), the handler never propagates an exception:
it always terminates by returning a `FormState` value. -/
theorem addUser_never_throws (id : String) (prevState : FormState)
    (fd : FormData) (env : FetchOutcome) :
    ∃ fs, (addUser id prevState fd env).1 = Except.ok fs := by
  rcases h : tryBlock fd env with ⟨res, tr⟩
  cases res <;> simp [addUser, h]

/-- Claim C2 (counterexample): a run whose response has `ok = true` but a
malformed body returns a Failure and triggers zero cache-invalidation
signals, refuting the claim that every `response.ok` run yields
`success = true` with exactly one signal. -/
theorem addUser_ok_status_without_success :
    okMalformedResp.ok = true ∧
    (addUser "1" emptyState adaForm (FetchOutcome.resp okMalformedResp)).1 =
      Except.ok { error := some (Json.str connectivityErrorMessage),
                  success := some false } ∧
    revalidateCount
      (addUser "1" emptyState adaForm (FetchOutcome.resp okMalformedResp)).2 = 0 :=
  ⟨rfl, rfl, rfl⟩

/-- Claim C2 (amended): when the remote call resolves with a success
status and a body that parses as JSON, `addUser` returns
`success = true` and triggers exactly one cache-invalidation signal; in
every other outcome it triggers zero signals. -/
theorem addUser_accepted_revalidation (id : String) (prevState : FormState)
    (fd : FormData) (env : FetchOutcome) :
    (remoteAccepted env = true →
      (addUser id prevState fd env).1 =
        Except.ok { error := none, success := some true } ∧
      revalidateCount (addUser id prevState fd env).2 = 1) ∧
    (remoteAccepted env = false →
      revalidateCount (addUser id prevState fd env).2 = 0) := by
  cases env with
  | fault => simp [remoteAccepted, addUser, tryBlock, revalidateCount]
  | resp r =>
    cases hok : r.ok with
    | true =>
      cases hb : r.jsonBody <;>
        simp [remoteAccepted, addUser, tryBlock, revalidateCount, hok, hb]
    | false =>
      cases hb : r.jsonBody with
      | none =>
        simp [remoteAccepted, addUser, tryBlock, revalidateCount, hok, hb]
      | some b =>
        rcases hm : getProp b "message" with e | m <;>
          simp [remoteAccepted, addUser, tryBlock, revalidateCount, hok, hb, hm]

/-- Claim C2 (witness): the amended statement at the concrete 200
scenario and at a transport fault. -/
theorem addUser_accepted_revalidation_witness :
    ((addUser "1" emptyState adaForm (FetchOutcome.resp adaOkResp)).1 =
        Except.ok { error := none, success := some true } ∧
      revalidateCount
        (addUser "1" emptyState adaForm (FetchOutcome.resp adaOkResp)).2 = 1) ∧
    revalidateCount (addUser "1" emptyState adaForm FetchOutcome.fault).2 = 0 :=
  ⟨(addUser_accepted_revalidation "1" emptyState adaForm
      (FetchOutcome.resp adaOkResp)).1 rfl,
   (addUser_accepted_revalidation "1" emptyState adaForm
      FetchOutcome.fault).2 rfl⟩

/-- Claim C3 (counterexample): with a 400 response whose body has the
field `message` present but equal to `""`, the Failure carries
`"Server error: 400"` instead of the present `message` field; and with
status 500 the fallback text is `"Server error: 500"`, so the fallback is
not one fixed message either. -/
theorem addUser_rejection_message_counterexample :
    getProp (Json.obj [("message", Json.str "")]) "message" =
      Except.ok (some (Json.str "")) ∧
    (addUser "1" emptyState adaForm
      (FetchOutcome.resp { ok := false, status := 400, statusText := "Bad Request",
                           jsonBody := some (Json.obj
                             [("message", Json.str "")]) })).1 =
      Except.ok { error := some (Json.str "Server error: 400"),
                  success := some false } ∧
    (addUser "1" emptyState adaForm
      (FetchOutcome.resp { ok := false, status := 500, statusText := "Server Error",
                           jsonBody := some (Json.obj
                             [("message", Json.str "")]) })).1 =
      Except.ok { error := some (Json.str "Server error: 500"),
                  success := some false } ∧
    Json.str "Server error: 400" ≠ Json.str "" ∧
    Json.str "Server error: 400" ≠ Json.str "Server error: 500" := by
  refine ⟨rfl, rfl, rfl, ?_, ?_⟩ <;>
    (intro h; injection h with h2; exact absurd h2 (by decide))

/-- Claim C3 (amended): when the remote responds with a non-success
status and a body that parses as JSON, `addUser` returns Failure carrying
the body's `message` field when the property access yields it and it is
truthy; when the access yields a falsy or missing value, the
status-bearing generic text `"Server error: <status>"`; and when the
parsed body is the JSON literal `null`, the property access throws and
the catch returns the generic connectivity message.  Zero
cache-invalidation signals are triggered.  (An unparseable body takes
the connectivity path as well.) -/
theorem addUser_rejection_message (id : String) (prevState : FormState)
    (fd : FormData) (r : Response) (b : Json)
    (hok : r.ok = false) (hb : r.jsonBody = some b) :
    (∀ m, getProp b "message" = Except.ok (some m) → truthy m = true →
      (addUser id prevState fd (FetchOutcome.resp r)).1 =
        Except.ok { error := some m, success := some false }) ∧
    (∀ m, getProp b "message" = Except.ok m → truthyOpt m = false →
      (addUser id prevState fd (FetchOutcome.resp r)).1 =
        Except.ok { error := some (Json.str (serverErrorMessage r.status)),
                    success := some false }) ∧
    (b = Json.null →
      (addUser id prevState fd (FetchOutcome.resp r)).1 =
        Except.ok { error := some (Json.str connectivityErrorMessage),
                    success := some false }) ∧
    revalidateCount (addUser id prevState fd (FetchOutcome.resp r)).2 = 0 := by
  refine ⟨?_, ?_, ?_, ?_⟩
  · intro m hm ht
    simp [addUser, tryBlock, hok, hb, hm, messageOrFallback, ht]
  · intro m hm hf
    cases m with
    | none => simp [addUser, tryBlock, hok, hb, hm, messageOrFallback]
    | some v =>
      simp only [truthyOpt] at hf
      simp [addUser, tryBlock, hok, hb, hm, messageOrFallback, hf]
  · rintro rfl
    simp [addUser, tryBlock, hok, hb, getProp]
  · rcases hm : getProp b "message" with e | m <;>
      simp [addUser, tryBlock, hok, hb, hm, revalidateCount]

/-- A 400 response whose parsed body is the JSON literal `null`. -/
def null400Resp : Response :=
  { ok := false, status := 400, statusText := "Bad Request",
    jsonBody := some Json.null }

/-- Claim C3 (witness): the amended statement at the concrete 400
scenario with body `\x7bmessage: "email already exists"\x7d`, and at a
400 response whose parsed body is `null`. -/
theorem addUser_rejection_message_witness :
    (addUser "1" emptyState adaForm (FetchOutcome.resp email400Resp)).1 =
      Except.ok { error := some (Json.str "email already exists"),
                  success := some false } ∧
    (addUser "1" emptyState adaForm (FetchOutcome.resp null400Resp)).1 =
      Except.ok { error := some (Json.str connectivityErrorMessage),
                  success := some false } :=
  ⟨(addUser_rejection_message "1" emptyState adaForm email400Resp
      (Json.obj [("message", Json.str "email already exists")]) rfl rfl).1
      (Json.str "email already exists") rfl rfl,
   (addUser_rejection_message "1" emptyState adaForm null400Resp
      Json.null rfl rfl).2.2.1 rfl⟩

/-- Claim C4: whenever the outbound exchange cannot complete at all (the
`fetch` promise rejects — connection refused, timeout, DNS failure — or
the response body is malformed), `addUser` returns Failure with the one
fixed connectivity message and triggers zero cache-invalidation
signals. -/
theorem addUser_transport_failure (id : String) (prevState : FormState)
    (fd : FormData) (env : FetchOutcome) (h : cannotComplete env = true) :
    (addUser id prevState fd env).1 =
      Except.ok { error := some (Json.str connectivityErrorMessage),
                  success := some false } ∧
    revalidateCount (addUser id prevState fd env).2 = 0 := by
  cases env with
  | fault => simp [addUser, tryBlock, revalidateCount]
  | resp r =>
    simp only [cannotComplete, Option.isNone_iff_eq_none] at h
    cases hok : r.ok <;> simp [addUser, tryBlock, revalidateCount, hok, h]

/-- Claim C4 (witness): the statement at a rejected `fetch` promise. -/
theorem addUser_transport_failure_witness :
    (addUser "1" emptyState adaForm FetchOutcome.fault).1 =
      Except.ok { error := some (Json.str connectivityErrorMessage),
                  success := some false } ∧
    revalidateCount (addUser "1" emptyState adaForm FetchOutcome.fault).2 = 0 :=
  addUser_transport_failure "1" emptyState adaForm FetchOutcome.fault rfl

/-- Claim C5 (counterexample): in the concrete 200 scenario the returned
value is exactly `\x7b error := none, success := some true \x7d` — the
`FormState` type of the source has no payload field — and the result is
bit-for-bit the same when the server-confirmed body is replaced by
`null`, so the result cannot echo server-confirmed data. -/
theorem addUser_payload_not_echoed :
    (addUser "1" emptyState adaForm (FetchOutcome.resp adaOkResp)).1 =
      (addUser "1" emptyState adaForm
        (FetchOutcome.resp { ok := true, status := 200, statusText := "OK",
                             jsonBody := some Json.null })).1 ∧
    (addUser "1" emptyState adaForm (FetchOutcome.resp adaOkResp)).1 =
      Except.ok { error := none, success := some true } :=
  ⟨rfl, rfl⟩

/-- Claim C5 (amended): in the concrete 200 scenario the result is
Success (`success = true`, no error); the server-confirmed payload is not
carried in the result — it is only written to the console log — and
exactly one cache-invalidation signal fires.  The full effect trace is
listed. -/
theorem addUser_ada_scenario :
    (addUser "1" emptyState adaForm (FetchOutcome.resp adaOkResp)).1 =
      Except.ok { error := none, success := some true } ∧
    (addUser "1" emptyState adaForm (FetchOutcome.resp adaOkResp)).2 =
      [Effect.log (LogEntry.optStr (some "Ada")),
       Effect.log (LogEntry.optStr (some "ada@example.com")),
       Effect.log (LogEntry.str "1"),
       Effect.awaitWait 3000,
       Effect.awaitFetch registerUrl (some (requestBody adaForm)),
       Effect.awaitJson,
       Effect.log (LogEntry.json adaBody),
       Effect.revalidate "/"] :=
  ⟨rfl, rfl⟩

/-- Claim C6: every `FormState` returned by `addUser` satisfies the
exclusivity invariant: a Success carries no error, and a Failure carries
an error message with `success = false`; no returned value has both. -/
theorem addUser_exclusivity (id : String) (prevState : FormState)
    (fd : FormData) (env : FetchOutcome) :
    ∃ fs, (addUser id prevState fd env).1 = Except.ok fs ∧
      ((fs.success = some true ∧ fs.error = none) ∨
       (fs.success = some false ∧ ∃ e, fs.error = some e)) := by
  cases env with
  | fault => exact ⟨_, rfl, Or.inr ⟨rfl, _, rfl⟩⟩
  | resp r =>
    rcases r with ⟨ok, status, statusText, jb⟩
    cases ok with
    | false =>
      cases jb with
      | none => exact ⟨_, rfl, Or.inr ⟨rfl, _, rfl⟩⟩
      | some b => cases b <;> exact ⟨_, rfl, Or.inr ⟨rfl, _, rfl⟩⟩
    | true =>
      cases jb with
      | none => exact ⟨_, rfl, Or.inr ⟨rfl, _, rfl⟩⟩
      | some b => exact ⟨_, rfl, Or.inl ⟨rfl, rfl⟩⟩

/-- Whether a JSON value is an array (a sequence of records). -/
def isArr : Json → Bool
  | Json.arr _ => true
  | _ => false

/-- A 200 listing response whose body is an (empty) array of records. -/
def usersOkResp : Response :=
  { ok := true, status := 200, statusText := "OK", jsonBody := some (Json.arr []) }

/-- Claim C7 (counterexample): when the listing endpoint responds 200
with the JSON body `"oops"`, `getUsers` returns `error = none` and
`users = "oops"`, which is neither a sequence of records nor a failure
message — `data.users || data` passes a non-array body through
unchanged. -/
theorem getUsers_nonsequence_result :
    (getUsers (FetchOutcome.resp { ok := true, status := 200, statusText := "OK",
                                   jsonBody := some (Json.str "oops") })).1 =
      Except.ok { users := Json.str "oops", error := none } ∧
    isArr (Json.str "oops") = false :=
  ⟨rfl, rfl⟩

/-- Claim C7 (amended): `getUsers` never throws past its boundary: it
always returns a record tagged by its `error` field, with a failure
message accompanied by an empty sequence, or `error` absent with the
remote-derived data — which is the remote's sequence whenever the remote
supplies a sequence, but is passed through unchanged otherwise. -/
theorem getUsers_two_outcome (env : FetchOutcome) :
    (∃ r, (getUsers env).1 = Except.ok r ∧
      ((∃ m, r.error = some m ∧ r.users = Json.arr []) ∨ r.error = none)) ∧
    (∀ r, env = FetchOutcome.resp r → r.ok = true →
      ∀ xs, r.jsonBody = some (Json.arr xs) →
        (getUsers env).1 = Except.ok { users := Json.arr xs, error := none }) := by
  constructor
  · cases env with
    | fault => exact ⟨_, rfl, Or.inl ⟨_, rfl, rfl⟩⟩
    | resp r =>
      rcases r with ⟨ok, status, statusText, jb⟩
      cases ok with
      | false =>
        cases jb with
        | none => exact ⟨_, rfl, Or.inl ⟨_, rfl, rfl⟩⟩
        | some b => exact ⟨_, rfl, Or.inl ⟨_, rfl, rfl⟩⟩
      | true =>
        cases jb with
        | none => exact ⟨_, rfl, Or.inl ⟨_, rfl, rfl⟩⟩
        | some b =>
          cases b <;> first
            | exact ⟨_, rfl, Or.inr rfl⟩
            | exact ⟨_, rfl, Or.inl ⟨_, rfl, rfl⟩⟩
  · rintro r rfl hok xs hb
    simp [getUsers, getUsersTry, hok, hb, getProp]

/-- Claim C7 (witness): the amended statement at a 200 response whose
body is an array. -/
theorem getUsers_two_outcome_witness :
    (getUsers (FetchOutcome.resp usersOkResp)).1 =
      Except.ok { users := Json.arr [], error := none } :=
  (getUsers_two_outcome (FetchOutcome.resp usersOkResp)).2 usersOkResp rfl rfl [] rfl

/-- Claim C8 (counterexample): on the concrete 200 scenario the handler
suspends three times — at the simulated 3000 ms delay, at the network
call, and at the body parse — so the network call is not its only
suspension, though there is exactly one network call. -/
theorem addUser_extra_suspensions :
    suspensionEffects
        (addUser "1" emptyState adaForm (FetchOutcome.resp adaOkResp)).2 =
      [Effect.awaitWait 3000,
       Effect.awaitFetch registerUrl (some (requestBody adaForm)),
       Effect.awaitJson] ∧
    isSuspension (Effect.awaitWait 3000) = true ∧
    fetchCount (addUser "1" emptyState adaForm (FetchOutcome.resp adaOkResp)).2 = 1 ∧
    (suspensionEffects
        (addUser "1" emptyState adaForm (FetchOutcome.resp adaOkResp)).2).length ≠ 1 :=
  ⟨rfl, rfl, rfl, by decide⟩

/-- Claim C8 (amended): every invocation of `addUser` performs exactly
one outbound network call, in every branch; its suspensions are the fixed
3000 ms delay followed by the network call, plus one body-parse await
whenever a response is received. -/
theorem addUser_single_fetch (id : String) (prevState : FormState)
    (fd : FormData) (env : FetchOutcome) :
    fetchCount (addUser id prevState fd env).2 = 1 ∧
    (env = FetchOutcome.fault →
      suspensionEffects (addUser id prevState fd env).2 =
        [Effect.awaitWait 3000,
         Effect.awaitFetch registerUrl (some (requestBody fd))]) ∧
    (∀ r, env = FetchOutcome.resp r →
      suspensionEffects (addUser id prevState fd env).2 =
        [Effect.awaitWait 3000,
         Effect.awaitFetch registerUrl (some (requestBody fd)),
         Effect.awaitJson]) := by
  refine ⟨?_, ?_, ?_⟩
  · cases env with
    | fault => simp [addUser, tryBlock, fetchCount]
    | resp r =>
      cases hok : r.ok with
      | true =>
        cases hb : r.jsonBody <;> simp [addUser, tryBlock, fetchCount, hok, hb]
      | false =>
        cases hb : r.jsonBody with
        | none => simp [addUser, tryBlock, fetchCount, hok, hb]
        | some b =>
          rcases hm : getProp b "message" with e | m <;>
            simp [addUser, tryBlock, fetchCount, hok, hb, hm]
  · rintro rfl
    simp [addUser, tryBlock, suspensionEffects, isSuspension]
  · rintro r rfl
    cases hok : r.ok with
    | true =>
      cases hb : r.jsonBody <;>
        simp [addUser, tryBlock, suspensionEffects, isSuspension, hok, hb]
    | false =>
      cases hb : r.jsonBody with
      | none =>
        simp [addUser, tryBlock, suspensionEffects, isSuspension, hok, hb]
      | some b =>
        rcases hm : getProp b "message" with e | m <;>
          simp [addUser, tryBlock, suspensionEffects, isSuspension, hok, hb, hm]

/-- Claim C8 (witness): the amended statement at a transport fault. -/
theorem addUser_single_fetch_witness :
    fetchCount (addUser "1" emptyState adaForm FetchOutcome.fault).2 = 1 ∧
    suspensionEffects (addUser "1" emptyState adaForm FetchOutcome.fault).2 =
      [Effect.awaitWait 3000,
       Effect.awaitFetch registerUrl (some (requestBody adaForm))] :=
  ⟨(addUser_single_fetch "1" emptyState adaForm FetchOutcome.fault).1,
   (addUser_single_fetch "1" emptyState adaForm FetchOutcome.fault).2.1 rfl⟩

/-- Claim C9: a response with a success status whose body cannot be
parsed as JSON is reported as a transport failure: `addUser` returns
Failure with the generic connectivity message and triggers zero
cache-invalidation signals. -/
theorem addUser_success_malformed_body (id : String) (prevState : FormState)
    (fd : FormData) (r : Response) (hok : r.ok = true) (hb : r.jsonBody = none) :
    (addUser id prevState fd (FetchOutcome.resp r)).1 =
      Except.ok { error := some (Json.str connectivityErrorMessage),
                  success := some false } ∧
    revalidateCount (addUser id prevState fd (FetchOutcome.resp r)).2 = 0 := by
  simp [addUser, tryBlock, revalidateCount, hok, hb]

/-- Claim C9 (witness): the statement at the concrete 200 response with
a malformed body. -/
theorem addUser_success_malformed_body_witness :
    (addUser "1" emptyState adaForm (FetchOutcome.resp okMalformedResp)).1 =
      Except.ok { error := some (Json.str connectivityErrorMessage),
                  success := some false } ∧
    revalidateCount
      (addUser "1" emptyState adaForm (FetchOutcome.resp okMalformedResp)).2 = 0 :=
  addUser_success_malformed_body "1" emptyState adaForm okMalformedResp rfl rfl

/-- Claim C10: the returned `FormState` and the number of
cache-invalidation signals of `addUser` are independent of the bound `id`
argument and of the `prevState` argument: two invocations differing only
there, with the same form data and remote outcome, return the same value
and signal count. -/
theorem addUser_independent_of_id_prevState (idA idB : String)
    (pA pB : FormState) (fd : FormData) (env : FetchOutcome) :
    (addUser idA pA fd env).1 = (addUser idB pB fd env).1 ∧
    revalidateCount (addUser idA pA fd env).2 =
      revalidateCount (addUser idB pB fd env).2 := by
  cases env with
  | fault => exact ⟨rfl, rfl⟩
  | resp r =>
    rcases r with ⟨ok, status, statusText, jb⟩
    rcases jb with _ | b
    · cases ok <;> exact ⟨rfl, rfl⟩
    · cases ok with
      | false => cases b <;> exact ⟨rfl, rfl⟩
      | true => exact ⟨rfl, rfl⟩
